import Mathlib

/-! Request orchestration of `frontend/src/App.js`

A shallow embedding of the state held by the `App` component and of the three
handlers that change it: `handleFileChange`, `handleSubmit` and `askAI`.

Every `async` handler is split at its single `await`: the part that runs
synchronously when the handler is called (it returns the new state and the
request that is posted, if any), and the part that runs when the request
settles (it takes the outcome of the request and the state at that moment).
-/

set_option autoImplicit false

namespace App

/-! ## JavaScript values -/

/-- A JavaScript number as far as this program observes it: whether it is falsy
(`0`, `-0` or `NaN`) and the text `ToString` gives for it. -/
structure JsNumber where
  falsy : Bool
  text : String

/-- The values a response body (parsed JSON, or a raw string) can hold, plus
`undefined`, which reading an absent property yields. An object is the list
of its own properties. -/
inductive JsVal where
  | undefined
  | null
  | bool (b : Bool)
  | num (n : JsNumber)
  | str (s : String)
  | arr (items : List JsVal)
  | obj (props : List (String × JsVal))

/-- ToBoolean: what `if (v)`, `!v` and `v || w` test. -/
def truthy : JsVal → Bool
  | .undefined => false
  | .null => false
  | .bool b => b
  | .num n => !n.falsy
  | .str s => !(s == "")
  | .arr _ => true
  | .obj _ => true

/-- The value stored under `key` among the own properties of an object. -/
def lookupProp (key : String) : List (String × JsVal) → Option JsVal
  | [] => none
  | (k, v) :: rest => if k == key then some v else lookupProp key rest

/-- Reading `v.key` on a value that is neither `null` nor `undefined`, for a
property name that no built-in prototype defines (the program reads `detail`,
`msg`, `answer` and `result`): an own property of an object, else `undefined`. -/
def getProp (v : JsVal) (key : String) : JsVal :=
  match v with
  | .obj props => (lookupProp key props).getD .undefined
  | _ => .undefined

/-- `typeof v === 'string'`. -/
def isString : JsVal → Bool
  | .str _ => true
  | _ => false

/-- `Array.isArray(v)`. -/
def isArray : JsVal → Bool
  | .arr _ => true
  | _ => false

mutual
/-- ToString of a value, as string concatenation, template literals and
`join` apply it; `none` when the conversion throws a TypeError: a parsed
object converts through `Object.prototype.toString`, which an own property
named `toString` (never callable in parsed JSON) hides. -/
def jsToString : JsVal → Option String
  | .undefined => some "undefined"
  | .null => some "null"
  | .bool b => some (if b then "true" else "false")
  | .num n => some n.text
  | .str s => some s
  | .arr items => (elemStrings items).map (String.intercalate ",")
  | .obj props => if props.any (fun p => p.1 == "toString") then none else some "[object Object]"
/-- The texts `Array.prototype.join` puts between the separators: the empty
string for `undefined` and `null`, ToString of any other element. -/
def elemStrings : List JsVal → Option (List String)
  | [] => some []
  | .undefined :: rest => (elemStrings rest).map (fun l => "" :: l)
  | .null :: rest => (elemStrings rest).map (fun l => "" :: l)
  | v :: rest =>
    match jsToString v with
    | none => none
    | some t => (elemStrings rest).map (fun l => t :: l)
end

/-- The call `items.join(sep)`. -/
def join (items : List JsVal) (sep : String) : Option String :=
  (elemStrings items).map (String.intercalate sep)

/-! ## Strings -/

/-- The call `s.includes(sub)`: `sub` occurs in `s` as a contiguous run. -/
def includes (s sub : String) : Bool :=
  s.data.tails.any (fun t => sub.data.isPrefixOf t)

/-- The code points `String.prototype.trim` strips: the WhiteSpace and
LineTerminator productions of ECMAScript. -/
def isWhiteSpace (c : Char) : Bool :=
  c.toNat ∈ [0x9, 0xA, 0xB, 0xC, 0xD, 0x20, 0xA0, 0x1680, 0x2000, 0x2001, 0x2002,
    0x2003, 0x2004, 0x2005, 0x2006, 0x2007, 0x2008, 0x2009, 0x200A, 0x2028, 0x2029,
    0x202F, 0x205F, 0x3000, 0xFEFF]

/-- The call `s.trim()`. -/
def trim (s : String) : String :=
  ⟨((s.data.dropWhile isWhiteSpace).reverse.dropWhile isWhiteSpace).reverse⟩

/-! ## Component state -/

/-- A file picked in a file input. -/
structure File where
  name : String
  type : String
  size : Nat
  deriving DecidableEq

/-- What the `file` state holds: `null` initially, then `e.target.files[0]`,
which is `undefined` when the picker was closed with no file. -/
inductive FileSlot where
  | null
  | undefined
  | file (f : File)
  deriving DecidableEq

/-- The `useState` cells of `App`. `error` holds `null` or a string. -/
structure State where
  file : FileSlot
  chartFormat : String
  contentType : String
  loading : Bool
  result : JsVal
  error : Option String
  aiQuestion : String
  aiAnswer : JsVal
  aiLoading : Bool

/-- The initial values given to `useState`. -/
def initialState : State where
  file := .null
  chartFormat := "visual"
  contentType := "titleblock-hybrid"
  loading := false
  result := .null
  error := none
  aiQuestion := ""
  aiAnswer := .str ""
  aiLoading := false

/-! ## Requests and their outcomes -/

/-- A call of `axios.post`: the multipart upload of `handleSubmit` (one field,
`file`) or the JSON body `{question, document_data}` of `askAI`. -/
inductive Request where
  | upload (url : String) (file : File)
  | ask (url : String) (question : String) (documentData : JsVal)

/-- The URL a request is posted to. -/
def Request.url : Request → String
  | .upload url _ => url
  | .ask url _ _ => url

/-- The response of the server, of which the program reads `data`. -/
structure Response where
  data : JsVal

/-- The error a rejected `axios.post` throws: its `message`, and its
`response` when the server answered at all. -/
structure JsError where
  message : String
  response : Option Response

/-- How an awaited `axios.post` settles. -/
inductive Outcome where
  | resolved (response : Response)
  | rejected (err : JsError)

/-! ## `handleFileChange` and the select handlers -/

/-- The handler `handleFileChange`, given the `files` of the input that fired:
`setFile(e.target.files[0]); setResult(null); setError(null); setAiAnswer('')`. -/
def handleFileChange (s : State) (files : List File) : State :=
  { s with
    file := match files with
      | [] => .undefined
      | f :: _ => .file f
    result := .null
    error := none
    aiAnswer := .str "" }

/-- The `onChange` of the chart-format select: `setChartFormat(e.target.value)`. -/
def setChartFormat (s : State) (value : String) : State :=
  { s with chartFormat := value }

/-- The `onChange` of the content-type select: `setContentType(e.target.value)`. -/
def setContentType (s : State) (value : String) : State :=
  { s with contentType := value }

/-- The `onChange` of the question input and the example-question buttons:
`setAiQuestion(value)`. -/
def setAiQuestion (s : State) (value : String) : State :=
  { s with aiQuestion := value }

/-! ## `handleSubmit` -/

/-- The host the deployed backend answers on. -/
def renderHost : String := "https://construction-document-parser.onrender.com"

/-- The `url` that the `try` block of `handleSubmit` builds from its argument
and the two selects: the default, then the two `if (endpoint.includes(..))`
overrides, in source order. -/
def submitUrl (endpoint chartFormat contentType : String) : String :=
  let url := "http://localhost:8000" ++ endpoint
  let url := if includes endpoint "gantt" then
      renderHost ++ "/gantt_parser/" ++ chartFormat
    else url
  let url := if includes endpoint "drawing" then
      renderHost ++ "/drawing_parser/" ++ contentType ++ "/"
    else url
  url

/-- The part of `handleSubmit(endpoint)` before the `await`: the guard on
`file`, the four resets, and the request that is posted. -/
def handleSubmit (s : State) (endpoint : String) : State × Option Request :=
  match s.file with
  | .file f =>
    ({ s with loading := true, error := none, result := .null, aiAnswer := .str "" },
      some (.upload (submitUrl endpoint s.chartFormat s.contentType) f))
  | _ => ({ s with error := some "Please select a file first" }, none)

/-- The expression `err.response?.data?.detail`. -/
def errorDetail (err : JsError) : JsVal :=
  match err.response with
  | none => .undefined
  | some r =>
    match r.data with
    | .undefined => .undefined
    | .null => .undefined
    | d => getProp d "detail"

/-- The callback `e => e.msg` over the elements of an array; `none` when an
element is `null` or `undefined`, on which the read throws a TypeError. -/
def mapMsg : List JsVal → Option (List JsVal)
  | [] => some []
  | .undefined :: _ => none
  | .null :: _ => none
  | e :: rest => (mapMsg rest).map (fun l => getProp e "msg" :: l)

/-- What `err.message || 'Error processing file'` evaluates to. -/
def messageOrFallback (err : JsError) : String :=
  if err.message == "" then "Error processing file" else err.message

/-- The `catch` block of `handleSubmit`: the string it passes to `setError`,
or `none` when the block itself throws before reaching `setError`. -/
def submitErrorMessage (err : JsError) : Option String :=
  let detail := errorDetail err
  if truthy detail then
    match detail with
    | .str s => some s
    | .arr items =>
      match mapMsg items with
      | none => none
      | some msgs =>
        match join msgs ", " with
        | none => none
        | some errorMessages => some ("Validation error: " ++ errorMessages)
    | _ => some "Error processing file"
  else
    some (if err.message == "" then "Error processing file" else err.message)

/-- The part of `handleSubmit` after the `await`, run on the state at the
moment the request settles: `setResult(response.data)` or the `catch` block,
then the `finally` block. -/
def handleSubmitSettle (o : Outcome) (s : State) : State :=
  match o with
  | .resolved r => { s with result := r.data, loading := false }
  | .rejected err =>
    match submitErrorMessage err with
    | some m => { s with error := some m, loading := false }
    | none => { s with loading := false }

/-! ## `askAI` -/

/-- The part of `askAI()` before the `await`: the guard on `result` and the
trimmed question, the two resets, and the request that is posted. -/
def askAI (s : State) : State × Option Request :=
  if !truthy s.result || trim s.aiQuestion == "" then (s, none)
  else
    ({ s with aiLoading := true, aiAnswer := .str "" },
      some (.ask (renderHost ++ "/ask_ai/") s.aiQuestion (getProp s.result "result")))

/-- The `catch` block of `askAI`: the string `'Error: ' + (detail || err.message)`
it passes to `setAiAnswer`, or `none` when the concatenation throws. -/
def askErrorText (err : JsError) : Option String :=
  let detail := errorDetail err
  let shown := if truthy detail then detail else .str err.message
  (jsToString shown).map (fun t => "Error: " ++ t)

/-- The `catch` and `finally` blocks of `askAI` on a caught error. -/
def askAICatch (err : JsError) (s : State) : State :=
  match askErrorText err with
  | some t => { s with aiAnswer := .str t, aiLoading := false }
  | none => { s with aiLoading := false }

/-- The part of `askAI` after the `await`, run on the state at the moment the
request settles. Reading `response.data.answer` on a body that is `null` or
`undefined` throws inside the `try`; `typeErrorMessage` is the message the
engine gives that TypeError. -/
def askAISettle (typeErrorMessage : String) (o : Outcome) (s : State) : State :=
  match o with
  | .resolved r =>
    match r.data with
    | .undefined => askAICatch { message := typeErrorMessage, response := none } s
    | .null => askAICatch { message := typeErrorMessage, response := none } s
    | d => { s with aiAnswer := getProp d "answer", aiLoading := false }
  | .rejected err => askAICatch err s

/-! ## Reading a URL -/

/-- Cuts the characters of an absolute URL after its authority: the scheme,
`://` and the host on the left, the path (from its leading `/`) on the right. -/
def splitAuthority : List Char → List Char × List Char
  | [] => ([], [])
  | ':' :: '/' :: '/' :: rest =>
    (':' :: '/' :: '/' :: rest.takeWhile (fun c => c != '/'), rest.dropWhile (fun c => c != '/'))
  | c :: rest => (c :: (splitAuthority rest).1, (splitAuthority rest).2)

/-- Scheme and host of an absolute URL. -/
def urlBase (url : String) : String := ⟨(splitAuthority url.data).1⟩

/-- What follows scheme and host in an absolute URL. -/
def urlPath (url : String) : String := ⟨(splitAuthority url.data).2⟩

/-! ## Runs of the component -/

/-- Whether the `file` cell is truthy, as `!file` tests it. -/
def FileSlot.selected : FileSlot → Bool
  | .file _ => true
  | _ => false

/-- The `disabled` attribute of the three parse buttons: `loading || !file`. -/
def submitDisabled (s : State) : Bool :=
  s.loading || !s.file.selected

/-- The component together with the parse requests in flight. Submissions that
posted a request are numbered 0, 1, .. in the order they were initiated;
`pending` lists those whose request has not settled yet, and the most recently
initiated one has number `initiated - 1`. -/
structure Session where
  state : State
  pending : List Nat
  initiated : Nat

/-- A session around a state with no request in flight. -/
def Session.start (s : State) : Session :=
  { state := s, pending := [], initiated := 0 }

/-- The two steps of a session: a call of `handleSubmit`, and the settlement
of the request of a pending submission. -/
inductive Event where
  | submit (endpoint : String)
  | settle (id : Nat) (o : Outcome)

/-- One step of a session; `none` when the event cannot happen (the
submission `id` has no request in flight). -/
def Session.step (σ : Session) : Event → Option Session
  | .submit endpoint =>
    match handleSubmit σ.state endpoint with
    | (s', some _) =>
      some { state := s', pending := σ.pending ++ [σ.initiated], initiated := σ.initiated + 1 }
    | (s', none) => some { σ with state := s' }
  | .settle id o =>
    if id ∈ σ.pending then
      some { σ with state := handleSubmitSettle o σ.state, pending := σ.pending.erase id }
    else none

/-- The steps of a session in order. -/
def Session.run (σ : Session) : List Event → Option Session
  | [] => some σ
  | e :: rest =>
    match σ.step e with
    | some σ' => σ'.run rest
    | none => none

/-- One step of a session driven through the page: `handleSubmit` is only
called by the `onClick` of a parse button, which does not fire while the
button is disabled. -/
def Session.stepGated (σ : Session) : Event → Option Session
  | .submit endpoint => if submitDisabled σ.state then none else σ.step (.submit endpoint)
  | .settle id o => σ.step (.settle id o)

/-- The steps of a session driven through the page, in order. -/
def Session.runGated (σ : Session) : List Event → Option Session
  | [] => some σ
  | e :: rest =>
    match σ.stepGated e with
    | some σ' => σ'.runGated rest
    | none => none

/-- At most one request is in flight, that of the most recently initiated
submission, and `loading` says whether there is one. -/
def Session.Serial (σ : Session) : Prop :=
  (σ.pending = [] ∧ σ.state.loading = false)
  ∨ (σ.pending = [σ.initiated - 1] ∧ 0 < σ.initiated ∧ σ.state.loading = true)

/-- An operation run to settlement: a file selection (`files` is empty when
the picker was cancelled), a change of one of the selects or of the question,
a parse submission with the outcome of its request, an AI query with the
outcome of its request. -/
inductive Op where
  | selectFile (files : List File)
  | chartFormat (value : String)
  | contentType (value : String)
  | question (value : String)
  | parse (endpoint : String) (o : Outcome)
  | ask (o : Outcome)

/-- The state an operation leaves once it has settled; the outcome is not
consulted when the handler posts no request. -/
def perform (typeErrorMessage : String) (s : State) : Op → State
  | .selectFile files => handleFileChange s files
  | .chartFormat value => setChartFormat s value
  | .contentType value => setContentType s value
  | .question value => setAiQuestion s value
  | .parse endpoint o =>
    match handleSubmit s endpoint with
    | (s', some _) => handleSubmitSettle o s'
    | (s', none) => s'
  | .ask o =>
    match askAI s with
    | (s', some _) => askAISettle typeErrorMessage o s'
    | (s', none) => s'

/-- A sequence of operations, each run to settlement before the next starts. -/
def runOps (typeErrorMessage : String) (s : State) (ops : List Op) : State :=
  ops.foldl (perform typeErrorMessage) s

/-- What can run on the page while a parse request is in flight. The parse
buttons are disabled then, but every other control is live (the file inputs,
the two selects, the question, the ask button), and an AI request posted
before the submission can settle: the parse buttons do not look at
`aiLoading`. -/
inductive Interleaved where
  | selectFile (files : List File)
  | chartFormat (value : String)
  | contentType (value : String)
  | question (value : String)
  | ask
  | aiSettle (o : Outcome)

/-- Whether the step is the settlement of an AI request. -/
def Interleaved.isAiSettle : Interleaved → Bool
  | .aiSettle _ => true
  | _ => false

/-- The state one such step leaves. -/
def interleave (typeErrorMessage : String) (s : State) : Interleaved → State
  | .selectFile files => handleFileChange s files
  | .chartFormat value => setChartFormat s value
  | .contentType value => setContentType s value
  | .question value => setAiQuestion s value
  | .ask => (askAI s).1
  | .aiSettle o => askAISettle typeErrorMessage o s

/-- Such steps in order. -/
def runInterleaved (typeErrorMessage : String) (s : State) (steps : List Interleaved) : State :=
  steps.foldl (interleave typeErrorMessage) s

/-- No result and no AI answer are stored while no file is selected, and no
error is stored next to a result. -/
def Consistent (s : State) : Prop :=
  (s.file.selected = false → s.result = .null ∧ s.aiAnswer = .str "")
  ∧ (s.result ≠ .null → s.error = none)

/-! ## Sample inputs -/

/-- A picked PDF. -/
def sampleFile : File := { name := "plan.pdf", type := "application/pdf", size := 2048 }

/-- The state after `sampleFile` was picked and "Rooms - AI" selected. -/
def sampleState : State :=
  setContentType (handleFileChange initialState [sampleFile]) "rooms-ai"

/-- A state holding a parse result, a question and an earlier answer. -/
def sampleAnswered : State :=
  { sampleState with
    result := .obj [("input_format", .str "pdf"), ("result", .obj [("scale", .str "1:100")])]
    aiQuestion := "What is the plan scale?"
    aiAnswer := .str "1:100" }

/-- A file is picked and parsed, then a question is asked and answered. -/
def sampleOps : List Op :=
  [.selectFile [sampleFile],
    .parse "/drawing_parser/" (.resolved ⟨.obj [("result", .obj [("scale", .str "1:100")])]⟩),
    .question "What is the plan scale?",
    .ask (.resolved ⟨.obj [("answer", .str "1:100")]⟩)]

/-- The state `sampleOps` leads to. -/
def sampleReached : State :=
  { file := .file sampleFile
    chartFormat := "visual"
    contentType := "titleblock-hybrid"
    loading := false
    result := .obj [("result", .obj [("scale", .str "1:100")])]
    error := none
    aiQuestion := "What is the plan scale?"
    aiAnswer := .str "1:100"
    aiLoading := false }

/-- A transport failure: no response at all. -/
def networkError : JsError := { message := "Network Error", response := none }

/-- A failure response whose body is `body`, with the message axios gives a 4xx status. -/
def failure (body : JsVal) : JsError :=
  { message := "Request failed with status code 422", response := some { data := body } }

/-! ## Lemmas on URLs -/

theorem splitAuthority_append (l : List Char) :
    (splitAuthority l).1 ++ (splitAuthority l).2 = l := by
  induction l using splitAuthority.induct with
  | case1 => rfl
  | case2 rest => simp [splitAuthority, List.takeWhile_append_dropWhile]
  | case3 c rest hne ih =>
    rw [splitAuthority]
    · simp [ih]
    · exact hne

/-- Base and path are the two halves of the URL. -/
theorem urlBase_append_urlPath (url : String) : urlBase url ++ urlPath url = url := by
  apply String.ext
  simp [urlBase, urlPath, splitAuthority_append]

theorem renderHost_data :
    renderHost.data = "https://construction-document-parser.onrender.com".toList := rfl

theorem splitAuthority_renderHost (t : List Char) :
    splitAuthority (renderHost.data ++ '/' :: t) = (renderHost.data, '/' :: t) := by
  rw [renderHost_data]
  simp [splitAuthority]

theorem urlPath_renderHost (p : String) (t : List Char) (hp : p.data = '/' :: t) :
    urlPath (renderHost ++ p) = p := by
  unfold urlPath
  rw [String.data_append, hp, splitAuthority_renderHost, ← hp]

theorem urlBase_renderHost (p : String) (t : List Char) (hp : p.data = '/' :: t) :
    urlBase (renderHost ++ p) = renderHost := by
  unfold urlBase
  rw [String.data_append, hp, splitAuthority_renderHost]

theorem submitUrl_drawing (cf ct : String) :
    submitUrl "/drawing_parser/" cf ct = renderHost ++ "/drawing_parser/" ++ ct ++ "/" := by
  have h : includes "/drawing_parser/" "drawing" = true := by decide
  simp [submitUrl, h]

theorem submitUrl_gantt (cf ct : String) :
    submitUrl "/gantt_parser/" cf ct = renderHost ++ "/gantt_parser/" ++ cf := by
  have h : includes "/gantt_parser/" "gantt" = true := by decide
  have h' : includes "/gantt_parser/" "drawing" = false := by decide
  simp [submitUrl, h, h']

theorem submitUrl_financial (cf ct : String) :
    submitUrl "/financial_parser/" cf ct = "http://localhost:8000/financial_parser/" := by
  have h : includes "/financial_parser/" "gantt" = false := by decide
  have h' : includes "/financial_parser/" "drawing" = false := by decide
  simp [submitUrl, h, h']

theorem handleSubmit_request (s : State) (f : File) (endpoint : String)
    (hf : s.file = .file f) :
    (handleSubmit s endpoint).2
      = some (.upload (submitUrl endpoint s.chartFormat s.contentType) f) := by
  simp [handleSubmit, hf]

/-! ## Routing -/

/-- C1: with a file selected, the path of the URL `handleSubmit` posts to is
`/drawing_parser/` + contentType + `/` for the floor-plan button,
`/gantt_parser/` + chartFormat (no trailing slash) for the Gantt button and
`/financial_parser/` for the bill-of-quantities button, whatever the two
selects hold, so in particular for the four content types and the two chart
formats they offer. -/
theorem handleSubmit_posts_routed_path (s : State) (f : File) (hf : s.file = .file f) :
    (handleSubmit s "/drawing_parser/").2.map (fun r => urlPath r.url)
        = some ("/drawing_parser/" ++ s.contentType ++ "/")
    ∧ (handleSubmit s "/gantt_parser/").2.map (fun r => urlPath r.url)
        = some ("/gantt_parser/" ++ s.chartFormat)
    ∧ (handleSubmit s "/financial_parser/").2.map (fun r => urlPath r.url)
        = some "/financial_parser/" := by
  refine ⟨?_, ?_, ?_⟩
  · rw [handleSubmit_request s f _ hf, submitUrl_drawing]
    simp only [Option.map_some', Request.url, String.append_assoc]
    rw [urlPath_renderHost _ ("drawing_parser/".toList ++ s.contentType.data ++ ['/'])]
    simp only [String.data_append]
    rfl
  · rw [handleSubmit_request s f _ hf, submitUrl_gantt]
    simp only [Option.map_some', Request.url, String.append_assoc]
    rw [urlPath_renderHost _ ("gantt_parser/".toList ++ s.chartFormat.data)]
    simp only [String.data_append]
    rfl
  · rw [handleSubmit_request s f _ hf, submitUrl_financial]
    rfl

/-- Witness of C1 on `sampleState` (content type `rooms-ai`, chart format `visual`). -/
theorem handleSubmit_posts_routed_path_witness :
    sampleState.file = .file sampleFile
    ∧ ((handleSubmit sampleState "/drawing_parser/").2.map (fun r => urlPath r.url)
        = some ("/drawing_parser/" ++ sampleState.contentType ++ "/")
      ∧ (handleSubmit sampleState "/gantt_parser/").2.map (fun r => urlPath r.url)
        = some ("/gantt_parser/" ++ sampleState.chartFormat)
      ∧ (handleSubmit sampleState "/financial_parser/").2.map (fun r => urlPath r.url)
        = some "/financial_parser/") :=
  ⟨rfl, handleSubmit_posts_routed_path sampleState sampleFile rfl⟩

/-- C2: on `sampleState` the bill-of-quantities upload is posted to
`http://localhost:8000`, while the floor-plan upload, the Gantt upload and the
AI query (on `sampleAnswered`) are posted to the deployed host; the two bases
differ. -/
theorem financial_upload_leaves_render_host :
    (handleSubmit sampleState "/financial_parser/").2.map (fun r => urlBase r.url)
        = some "http://localhost:8000"
    ∧ (handleSubmit sampleState "/drawing_parser/").2.map (fun r => urlBase r.url)
        = some renderHost
    ∧ (handleSubmit sampleState "/gantt_parser/").2.map (fun r => urlBase r.url)
        = some renderHost
    ∧ (askAI sampleAnswered).2.map (fun r => urlBase r.url) = some renderHost
    ∧ "http://localhost:8000" ≠ renderHost := by
  refine ⟨by decide, by decide, by decide, by decide, by decide⟩

/-! ## Submitting -/

/-- C3: when `file` holds no file (`null` or `undefined`), `handleSubmit`
posts no request, sets `error` to "Please select a file first" and changes
nothing else, so `loading` keeps its value. -/
theorem handleSubmit_without_file (s : State) (endpoint : String)
    (hf : ∀ f, s.file ≠ .file f) :
    (handleSubmit s endpoint).2 = none
    ∧ (handleSubmit s endpoint).1.error = some "Please select a file first"
    ∧ (handleSubmit s endpoint).1.loading = s.loading
    ∧ (handleSubmit s endpoint).1 = { s with error := some "Please select a file first" } := by
  unfold handleSubmit
  cases hs : s.file with
  | null => exact ⟨rfl, rfl, rfl, rfl⟩
  | undefined => exact ⟨rfl, rfl, rfl, rfl⟩
  | file f => exact absurd hs (hf f)

/-- Witness of C3 on the initial state, whose `file` is `null`. -/
theorem handleSubmit_without_file_witness :
    (∀ f, initialState.file ≠ .file f)
    ∧ (handleSubmit initialState "/drawing_parser/").2 = none
    ∧ (handleSubmit initialState "/drawing_parser/").1.error = some "Please select a file first"
    ∧ (handleSubmit initialState "/drawing_parser/").1.loading = initialState.loading
    ∧ (handleSubmit initialState "/drawing_parser/").1
        = { initialState with error := some "Please select a file first" } :=
  ⟨fun _ h => FileSlot.noConfusion h,
    handleSubmit_without_file initialState "/drawing_parser/" (fun _ h => FileSlot.noConfusion h)⟩

/-! ## The `catch` block of `handleSubmit` -/

theorem mapMsg_objects (objs : List (List (String × JsVal))) (ms : List String)
    (hm : List.Forall₂ (fun props m => lookupProp "msg" props = some (JsVal.str m)) objs ms) :
    mapMsg (objs.map JsVal.obj) = some (ms.map JsVal.str) := by
  induction hm with
  | nil => rfl
  | cons h _ ih => simp [mapMsg, ih, getProp, h]

theorem elemStrings_strings (ms : List String) :
    elemStrings (ms.map JsVal.str) = some ms := by
  induction ms with
  | nil => rfl
  | cons m rest ih => simp [elemStrings, jsToString, ih]

theorem handleSubmitSettle_error (err : JsError) (m : String) (s : State)
    (h : submitErrorMessage err = some m) :
    (handleSubmitSettle (.rejected err) s).error = some m := by
  simp [handleSubmitSettle, h]

/-- C5: when the `detail` of a failure response is a list of objects whose
`msg` properties are the strings `m1..mn`, the `catch` block sets `error` to
"Validation error: " followed by `m1..mn` joined with ", ". -/
theorem validation_error_message (err : JsError) (objs : List (List (String × JsVal)))
    (ms : List String) (s : State)
    (hd : errorDetail err = .arr (objs.map JsVal.obj))
    (hm : List.Forall₂ (fun props m => lookupProp "msg" props = some (JsVal.str m)) objs ms) :
    (handleSubmitSettle (.rejected err) s).error
      = some ("Validation error: " ++ String.intercalate ", " ms) := by
  apply handleSubmitSettle_error
  simp [submitErrorMessage, hd, truthy, mapMsg_objects objs ms hm, join, elemStrings_strings]

/-- Witness of C5: the detail `[{msg: "a"}, {loc: "file", msg: "b"}]` gives
"Validation error: a, b". -/
theorem validation_error_message_witness :
    errorDetail (failure (.obj [("detail",
        .arr [.obj [("msg", .str "a")], .obj [("loc", .str "file"), ("msg", .str "b")]])]))
      = .arr ([[("msg", .str "a")], [("loc", .str "file"), ("msg", .str "b")]].map JsVal.obj)
    ∧ List.Forall₂ (fun props m => lookupProp "msg" props = some (JsVal.str m))
        [[("msg", .str "a")], [("loc", .str "file"), ("msg", .str "b")]] ["a", "b"]
    ∧ (handleSubmitSettle (.rejected (failure (.obj [("detail",
        .arr [.obj [("msg", .str "a")], .obj [("loc", .str "file"), ("msg", .str "b")]])])))
        sampleState).error = some "Validation error: a, b" :=
  ⟨rfl, .cons rfl (.cons rfl .nil),
    validation_error_message _ [[("msg", .str "a")], [("loc", .str "file"), ("msg", .str "b")]]
      ["a", "b"] sampleState rfl (.cons rfl (.cons rfl .nil))⟩

theorem submitErrorMessage_falsy (err : JsError) (h : truthy (errorDetail err) = false) :
    submitErrorMessage err = some (messageOrFallback err) := by
  simp [submitErrorMessage, h, messageOrFallback]

/-- C6, as stated, fails on the empty string: for the failure body
`{"detail": ""}` the detail is the string "", yet `error` becomes the transport
message "Request failed with status code 422". -/
theorem empty_string_detail_counterexample :
    errorDetail (failure (.obj [("detail", .str "")])) = .str ""
    ∧ (handleSubmitSettle (.rejected (failure (.obj [("detail", .str "")]))) sampleState).error
        = some "Request failed with status code 422"
    ∧ (handleSubmitSettle (.rejected (failure (.obj [("detail", .str "")]))) sampleState).error
        ≠ some "" := by
  refine ⟨rfl, rfl, ?_⟩
  decide

/-- C6, amended: when the `detail` of a failure response is a string `d`, the
`catch` block sets `error` to exactly `d` if `d` is non-empty, whatever the
transport message; the empty string fails the truthiness guard and `error`
is the transport message, or "Error processing file" when that is empty. -/
theorem string_detail_message (err : JsError) (d : String) (s : State)
    (hd : errorDetail err = .str d) :
    (d ≠ "" → (handleSubmitSettle (.rejected err) s).error = some d)
    ∧ (d = "" → (handleSubmitSettle (.rejected err) s).error = some (messageOrFallback err)) := by
  constructor
  · intro hne
    apply handleSubmitSettle_error
    simp [submitErrorMessage, hd, truthy, hne]
  · intro he
    apply handleSubmitSettle_error
    apply submitErrorMessage_falsy
    simp [hd, truthy, he]

/-- Witness of C6, amended: the detail "bad pdf" yields "bad pdf". -/
theorem string_detail_message_witness :
    errorDetail (failure (.obj [("detail", .str "bad pdf")])) = .str "bad pdf"
    ∧ ("bad pdf" ≠ "" →
        (handleSubmitSettle (.rejected (failure (.obj [("detail", .str "bad pdf")])))
          sampleState).error = some "bad pdf")
    ∧ ("bad pdf" = "" →
        (handleSubmitSettle (.rejected (failure (.obj [("detail", .str "bad pdf")])))
          sampleState).error
          = some (messageOrFallback (failure (.obj [("detail", .str "bad pdf")])))) :=
  ⟨rfl, string_detail_message (failure (.obj [("detail", .str "bad pdf")])) "bad pdf"
    sampleState rfl⟩

/-- C7, as stated, fails on `null`: for the failure body `{"detail": null}` the
detail is neither a string nor a list, yet `error` becomes the transport
message "Request failed with status code 422". -/
theorem null_detail_counterexample :
    errorDetail (failure (.obj [("detail", .null)])) = .null
    ∧ isString JsVal.null = false ∧ isArray JsVal.null = false
    ∧ (handleSubmitSettle (.rejected (failure (.obj [("detail", .null)]))) sampleState).error
        = some "Request failed with status code 422"
    ∧ (handleSubmitSettle (.rejected (failure (.obj [("detail", .null)]))) sampleState).error
        ≠ some "Error processing file" := by
  refine ⟨rfl, rfl, rfl, rfl, ?_⟩
  decide

/-- C7, amended: when the `detail` of a failure response is neither a string
nor a list, the `catch` block sets `error` to "Error processing file" if the
detail is truthy (an object, a non-zero number, `true`), whatever the
transport message; a falsy detail (`null`, `0`, `NaN`, `false`) fails the
truthiness guard and `error` is the transport message, or "Error processing
file" when that is empty. -/
theorem other_detail_message (err : JsError) (d : JsVal) (s : State)
    (hd : errorDetail err = d) (hs : isString d = false) (ha : isArray d = false) :
    (truthy d = true →
      (handleSubmitSettle (.rejected err) s).error = some "Error processing file")
    ∧ (truthy d = false →
      (handleSubmitSettle (.rejected err) s).error = some (messageOrFallback err)) := by
  constructor
  · intro ht
    apply handleSubmitSettle_error
    cases d <;> simp_all [submitErrorMessage, truthy, isString, isArray]
  · intro ht
    apply handleSubmitSettle_error
    apply submitErrorMessage_falsy
    rw [hd, ht]

/-- Witness of C7, amended: the object detail `{"code": 7}` yields
"Error processing file". -/
theorem other_detail_message_witness :
    errorDetail (failure (.obj [("detail", .obj [("code", .num ⟨false, "7"⟩)])]))
      = .obj [("code", .num ⟨false, "7"⟩)]
    ∧ isString (.obj [("code", .num ⟨false, "7"⟩)]) = false
    ∧ isArray (.obj [("code", .num ⟨false, "7"⟩)]) = false
    ∧ (truthy (.obj [("code", .num ⟨false, "7"⟩)]) = true →
        (handleSubmitSettle
          (.rejected (failure (.obj [("detail", .obj [("code", .num ⟨false, "7"⟩)])])))
          sampleState).error = some "Error processing file")
    ∧ (truthy (.obj [("code", .num ⟨false, "7"⟩)]) = false →
        (handleSubmitSettle
          (.rejected (failure (.obj [("detail", .obj [("code", .num ⟨false, "7"⟩)])])))
          sampleState).error
          = some (messageOrFallback
              (failure (.obj [("detail", .obj [("code", .num ⟨false, "7"⟩)])])))) :=
  ⟨rfl, rfl, rfl,
    other_detail_message (failure (.obj [("detail", .obj [("code", .num ⟨false, "7"⟩)])]))
      (.obj [("code", .num ⟨false, "7"⟩)]) sampleState rfl rfl rfl⟩

/-- C8: when no response was received at all, the `catch` block sets `error`
to the message of the thrown error if that is non-empty, and to "Error
processing file" otherwise. -/
theorem transport_failure_message (err : JsError) (s : State) (hr : err.response = none) :
    (handleSubmitSettle (.rejected err) s).error
      = some (if err.message = "" then "Error processing file" else err.message) := by
  apply handleSubmitSettle_error
  simp [submitErrorMessage, errorDetail, hr, truthy]

/-- Witness of C8: the transport failure "Network Error". -/
theorem transport_failure_message_witness :
    networkError.response = none
    ∧ (handleSubmitSettle (.rejected networkError) sampleState).error
        = some (if networkError.message = "" then "Error processing file"
            else networkError.message) :=
  ⟨rfl, transport_failure_message networkError sampleState rfl⟩

/-! ## The in-flight flags -/

theorem handleSubmitSettle_loading (o : Outcome) (s : State) :
    (handleSubmitSettle o s).loading = false := by
  cases o with
  | resolved r => rfl
  | rejected err =>
    simp only [handleSubmitSettle]
    cases submitErrorMessage err <;> rfl

theorem askAICatch_aiLoading (err : JsError) (s : State) :
    (askAICatch err s).aiLoading = false := by
  simp only [askAICatch]
  cases askErrorText err <;> rfl

theorem askAICatch_loading (err : JsError) (s : State) :
    (askAICatch err s).loading = s.loading := by
  simp only [askAICatch]
  cases askErrorText err <;> rfl

theorem askAISettle_aiLoading (typeErrorMessage : String) (o : Outcome) (s : State) :
    (askAISettle typeErrorMessage o s).aiLoading = false := by
  cases o with
  | resolved r =>
    simp only [askAISettle]
    cases r.data <;> rfl
  | rejected err => exact askAICatch_aiLoading err s

theorem askAISettle_loading (typeErrorMessage : String) (o : Outcome) (s : State) :
    (askAISettle typeErrorMessage o s).loading = s.loading := by
  cases o with
  | resolved r =>
    simp only [askAISettle]
    cases r.data <;> rfl
  | rejected err => exact askAICatch_loading err s

theorem askAI_loading (s : State) : (askAI s).1.loading = s.loading := by
  unfold askAI
  split <;> rfl

/-- C9: a `handleSubmit` with a file selected posts a request and leaves
`loading` true; whatever the outcome (a response, a failure response with any
body, a thrown transport error) its settlement leaves `loading` false, and
until then no other handler writes `loading`. An `askAI` that posts a request
leaves `aiLoading` true, and its settlement leaves `aiLoading` false whether
it resolved or was rejected. Both settlements clear their flag on any state. -/
theorem inflight_flags_cleared (s sa : State) (f : File) (endpoint typeErrorMessage : String)
    (hf : s.file = .file f) (hq : (askAI sa).2.isSome = true) :
    ((handleSubmit s endpoint).2.isSome = true ∧ (handleSubmit s endpoint).1.loading = true)
    ∧ (∀ o, (handleSubmitSettle o (handleSubmit s endpoint).1).loading = false)
    ∧ (askAI sa).1.aiLoading = true
    ∧ (∀ o, (askAISettle typeErrorMessage o (askAI sa).1).aiLoading = false)
    ∧ (∀ o s', (handleSubmitSettle o s').loading = false
        ∧ (askAISettle typeErrorMessage o s').aiLoading = false)
    ∧ (∀ (s' : State) (files : List File) (value : String) (o : Outcome),
        (handleFileChange s' files).loading = s'.loading
        ∧ (setChartFormat s' value).loading = s'.loading
        ∧ (setContentType s' value).loading = s'.loading
        ∧ (setAiQuestion s' value).loading = s'.loading
        ∧ (askAI s').1.loading = s'.loading
        ∧ (askAISettle typeErrorMessage o s').loading = s'.loading) := by
  refine ⟨?_, fun o => handleSubmitSettle_loading o _, ?_,
    fun o => askAISettle_aiLoading _ o _,
    fun o s' => ⟨handleSubmitSettle_loading o s', askAISettle_aiLoading _ o s'⟩,
    fun s' files value o => ⟨rfl, rfl, rfl, rfl, askAI_loading s', askAISettle_loading _ o s'⟩⟩
  · simp [handleSubmit, hf]
  · unfold askAI at hq ⊢
    split
    · rename_i hg
      simp [hg] at hq
    · rfl

/-- Witness of C9: a parse on `sampleState` and a question on `sampleAnswered`. -/
theorem inflight_flags_cleared_witness :
    sampleState.file = .file sampleFile
    ∧ (askAI sampleAnswered).2.isSome = true
    ∧ (handleSubmitSettle (.rejected networkError)
        (handleSubmit sampleState "/financial_parser/").1).loading = false
    ∧ (askAISettle "response.data is null" (.resolved ⟨.null⟩)
        (askAI sampleAnswered).1).aiLoading = false :=
  ⟨rfl, by decide,
    (inflight_flags_cleared sampleState sampleAnswered sampleFile "/financial_parser/"
      "response.data is null" rfl (by decide)).2.1 (.rejected networkError),
    (inflight_flags_cleared sampleState sampleAnswered sampleFile "/financial_parser/"
      "response.data is null" rfl (by decide)).2.2.2.1 (.resolved ⟨.null⟩)⟩

/-! ## Selecting a file -/

/-- C10: `handleFileChange` with a chosen file `f` leaves, in the one state it
returns, `file` equal to `f`, `result` null, `error` null and `aiAnswer`
empty, and changes no other cell: `loading`, `aiLoading`, `aiQuestion`,
`contentType` and `chartFormat` keep their values. -/
theorem handleFileChange_resets (s : State) (f : File) (rest : List File) :
    (handleFileChange s (f :: rest)).file = .file f
    ∧ (handleFileChange s (f :: rest)).result = .null
    ∧ (handleFileChange s (f :: rest)).error = none
    ∧ (handleFileChange s (f :: rest)).aiAnswer = .str ""
    ∧ (handleFileChange s (f :: rest)).loading = s.loading
    ∧ (handleFileChange s (f :: rest)).aiLoading = s.aiLoading
    ∧ (handleFileChange s (f :: rest)).aiQuestion = s.aiQuestion
    ∧ (handleFileChange s (f :: rest)).contentType = s.contentType
    ∧ (handleFileChange s (f :: rest)).chartFormat = s.chartFormat
    ∧ handleFileChange s (f :: rest)
        = { s with file := .file f, result := .null, error := none, aiAnswer := .str "" } :=
  ⟨rfl, rfl, rfl, rfl, rfl, rfl, rfl, rfl, rfl, rfl⟩

/-! ## Asking the AI -/

theorem trim_whitespace (q : String) (h : q.data.all isWhiteSpace = true) : trim q = "" := by
  have hd : q.data.dropWhile isWhiteSpace = [] := by
    rw [List.dropWhile_eq_nil_iff]
    intro c hc
    exact (List.all_eq_true.mp h) c hc
  simp [trim, hd]

/-- C11: when `result` is falsy (in particular `null`: no result stored) or
the question is empty or holds only whitespace, `askAI` posts no request and
returns the state as it was, so `aiAnswer`, `aiLoading` and every other cell
keep their values. -/
theorem askAI_guard_noop (s : State)
    (h : truthy s.result = false ∨ s.aiQuestion.data.all isWhiteSpace = true) :
    askAI s = (s, none) := by
  unfold askAI
  rcases h with h | h
  · simp [h]
  · simp [trim_whitespace _ h]

/-- Witness of C11: a stored result with the question " \t\n". -/
theorem askAI_guard_noop_witness :
    (truthy (setAiQuestion sampleAnswered " \t\n").result = false
      ∨ (setAiQuestion sampleAnswered " \t\n").aiQuestion.data.all isWhiteSpace = true)
    ∧ askAI (setAiQuestion sampleAnswered " \t\n") = (setAiQuestion sampleAnswered " \t\n", none) :=
  ⟨Or.inr (by decide), askAI_guard_noop _ (Or.inr (by decide))⟩

theorem askAICatch_frame (err : JsError) (s : State) :
    askAICatch err s = { s with aiAnswer := (askAICatch err s).aiAnswer, aiLoading := false } := by
  simp only [askAICatch]
  cases askErrorText err <;> rfl

theorem askAISettle_frame (typeErrorMessage : String) (o : Outcome) (s : State) :
    askAISettle typeErrorMessage o s
      = { s with aiAnswer := (askAISettle typeErrorMessage o s).aiAnswer, aiLoading := false } := by
  cases o with
  | resolved r =>
    simp only [askAISettle]
    cases r.data <;> rfl
  | rejected err => exact askAICatch_frame err s

theorem askAICatch_aiAnswer (err : JsError) (t : String) (s : State)
    (h : askErrorText err = some t) : (askAICatch err s).aiAnswer = .str t := by
  simp [askAICatch, h]

/-- C12, as stated, fails on an empty detail: for the failure body
`{"detail": ""}` the response carries the detail "", yet the stored message is
"Error: " followed by the transport message, not "Error: " followed by the
detail. -/
theorem askAI_empty_detail_counterexample :
    errorDetail (failure (.obj [("detail", .str "")])) = .str ""
    ∧ (askAISettle "response.data is null" (.rejected (failure (.obj [("detail", .str "")])))
        (askAI sampleAnswered).1).aiAnswer = .str "Error: Request failed with status code 422"
    ∧ (askAISettle "response.data is null" (.rejected (failure (.obj [("detail", .str "")])))
        (askAI sampleAnswered).1).aiAnswer ≠ .str ("Error: " ++ "") := by
  refine ⟨rfl, rfl, ?_⟩
  intro h
  have h' : "Error: Request failed with status code 422" = "Error: " ++ "" := JsVal.str.inj h
  exact absurd h' (by decide)

/-- C12, amended: a failed AI query stores "Error: " followed by the detail of
the failure response, as string concatenation renders it (a string as
itself), when that detail is truthy, and "Error: " followed by the message of
the thrown error when the response carries no detail or a falsy one (the
empty string, `null`, `0`, `false`) or when there is no response; a body that
is `null` counts as such a failure, with the message of the TypeError.
Whatever the outcome, the settlement changes neither `result` nor `error` nor
`loading`. -/
theorem askAI_failure_message (typeErrorMessage : String) (err : JsError) (d : JsVal)
    (s : State) (hd : errorDetail err = d) :
    (∀ t, truthy d = true → jsToString d = some t →
      (askAISettle typeErrorMessage (.rejected err) s).aiAnswer = .str ("Error: " ++ t))
    ∧ (∀ t, d = .str t → t ≠ "" →
      (askAISettle typeErrorMessage (.rejected err) s).aiAnswer = .str ("Error: " ++ t))
    ∧ (truthy d = false →
      (askAISettle typeErrorMessage (.rejected err) s).aiAnswer = .str ("Error: " ++ err.message))
    ∧ (askAISettle typeErrorMessage (.resolved ⟨.null⟩) s).aiAnswer
        = .str ("Error: " ++ typeErrorMessage)
    ∧ ∀ o, (askAISettle typeErrorMessage o s).result = s.result
        ∧ (askAISettle typeErrorMessage o s).error = s.error
        ∧ (askAISettle typeErrorMessage o s).loading = s.loading := by
  refine ⟨?_, ?_, ?_, rfl, ?_⟩
  · intro t ht hs
    apply askAICatch_aiAnswer
    simp [askErrorText, hd, ht, hs]
  · intro t ht hne
    apply askAICatch_aiAnswer
    simp [askErrorText, hd, ht, truthy, hne, jsToString]
  · intro hf
    apply askAICatch_aiAnswer
    simp [askErrorText, hd, hf, jsToString]
  · intro o
    rw [askAISettle_frame]
    exact ⟨rfl, rfl, rfl⟩

/-- Witness of C12, amended: the validation list `[{msg: "a"}, {msg: "b"}]` as
detail, on a pending question, is stored as
"Error: [object Object],[object Object]". -/
theorem askAI_failure_message_witness :
    errorDetail (failure (.obj [("detail",
        .arr [.obj [("msg", .str "a")], .obj [("msg", .str "b")]])]))
      = .arr [.obj [("msg", .str "a")], .obj [("msg", .str "b")]]
    ∧ truthy (.arr [.obj [("msg", .str "a")], .obj [("msg", .str "b")]]) = true
    ∧ jsToString (.arr [.obj [("msg", .str "a")], .obj [("msg", .str "b")]])
        = some "[object Object],[object Object]"
    ∧ (askAISettle "response.data is null"
        (.rejected (failure (.obj [("detail",
          .arr [.obj [("msg", .str "a")], .obj [("msg", .str "b")]])])))
        (askAI sampleAnswered).1).aiAnswer
        = .str ("Error: " ++ "[object Object],[object Object]") :=
  ⟨rfl, rfl, rfl, (askAI_failure_message "response.data is null"
      (failure (.obj [("detail", .arr [.obj [("msg", .str "a")], .obj [("msg", .str "b")]])]))
      (.arr [.obj [("msg", .str "a")], .obj [("msg", .str "b")]])
      (askAI sampleAnswered).1 rfl).1 "[object Object],[object Object]" rfl rfl⟩

/-! ## Overlapping submissions -/

theorem stepGated_serial (σ σ' : Session) (e : Event) (hσ : σ.Serial)
    (hs : σ.stepGated e = some σ') : σ'.Serial := by
  cases e with
  | submit endpoint =>
    simp only [Session.stepGated] at hs
    split at hs
    · exact absurd hs (by simp)
    · rename_i hdis
      simp only [submitDisabled, Bool.or_eq_true, not_or, Bool.not_eq_true,
        Bool.not_eq_false'] at hdis
      obtain ⟨hload, hsel⟩ := hdis
      rcases hσ with ⟨hp, _⟩ | ⟨_, _, ht⟩
      · cases hfile : σ.state.file with
        | null => simp [FileSlot.selected, hfile] at hsel
        | undefined => simp [FileSlot.selected, hfile] at hsel
        | file f =>
          simp only [Session.step, handleSubmit, hfile, Option.some.injEq] at hs
          subst hs
          right
          simp [hp]
      · rw [ht] at hload
        exact absurd hload (by simp)
  | settle id o =>
    simp only [Session.stepGated, Session.step] at hs
    split at hs
    · rename_i hmem
      simp only [Option.some.injEq] at hs
      subst hs
      rcases hσ with ⟨hp, _⟩ | ⟨hp, _, _⟩
      · rw [hp] at hmem
        exact absurd hmem (by simp)
      · left
        rw [hp] at hmem
        have hid : id = σ.initiated - 1 := by simpa using hmem
        refine ⟨?_, handleSubmitSettle_loading o _⟩
        simp [hp, hid]
    · exact absurd hs (by simp)

theorem runGated_serial (events : List Event) (σ σ' : Session) (hσ : σ.Serial)
    (hr : σ.runGated events = some σ') : σ'.Serial := by
  induction events generalizing σ with
  | nil =>
    simp only [Session.runGated, Option.some.injEq] at hr
    exact hr ▸ hσ
  | cons e rest ih =>
    simp only [Session.runGated] at hr
    cases hstep : σ.stepGated e with
    | none => simp [hstep] at hr
    | some σ₁ =>
      simp only [hstep] at hr
      exact ih σ₁ (stepGated_serial σ σ₁ e hσ hstep) hr

/-- C13, as stated, fails: `handleSubmit` called twice on `sampleState` leaves
the submissions 0 and 1 pending; when the request of submission 0 then
resolves, its body is stored as `result` although submission 1, the most
recently initiated one, is still pending. -/
theorem stale_response_counterexample :
    ((Session.start sampleState).run
        [.submit "/drawing_parser/", .submit "/gantt_parser/"]).map
        (fun σ => (σ.pending, σ.initiated, σ.state.result)) = some ([0, 1], 2, .null)
    ∧ ((Session.start sampleState).run
        [.submit "/drawing_parser/", .submit "/gantt_parser/",
          .settle 0 (.resolved ⟨.obj [("result", .str "first")]⟩)]).map
        (fun σ => (σ.pending, σ.initiated, σ.state.result))
        = some ([1], 2, .obj [("result", .str "first")]) :=
  ⟨rfl, rfl⟩

/-- C13, amended: in a session driven through the page, where `handleSubmit`
is called only while the parse buttons are enabled (`loading` false and a
file selected), started with `loading` false and no request in flight, at
most one submission is pending at any time, and it is the most recently
initiated one; so every settlement is that of the most recently initiated
submission, and a resolved one stores the body of that submission. -/
theorem gated_settlement_is_latest (s : State) (events : List Event) (σ : Session)
    (hl : s.loading = false) (hr : (Session.start s).runGated events = some σ) :
    σ.Serial
    ∧ ∀ id o σ', σ.stepGated (.settle id o) = some σ' →
        id + 1 = σ.initiated ∧ σ'.pending = []
        ∧ ∀ body, o = .resolved ⟨body⟩ → σ'.state.result = body := by
  have hser : σ.Serial := runGated_serial events _ σ (Or.inl ⟨rfl, hl⟩) hr
  refine ⟨hser, ?_⟩
  intro id o σ' hs
  have hser' := stepGated_serial σ σ' _ hser hs
  simp only [Session.stepGated, Session.step] at hs
  split at hs
  · rename_i hmem
    simp only [Option.some.injEq] at hs
    subst hs
    rcases hser with ⟨hp, _⟩ | ⟨hp, hpos, _⟩
    · rw [hp] at hmem
      exact absurd hmem (by simp)
    · rw [hp] at hmem
      have hid : id = σ.initiated - 1 := by simpa using hmem
      refine ⟨by omega, by simp [hp, hid], ?_⟩
      intro body ho
      subst ho
      rfl
  · exact absurd hs (by simp)

/-- Witness of C13, amended: one submission on `sampleState`, then its
settlement; a second click while the first is pending does not happen. -/
theorem gated_settlement_is_latest_witness :
    sampleState.loading = false
    ∧ (Session.start sampleState).runGated [.submit "/drawing_parser/"]
        = some { state := (handleSubmit sampleState "/drawing_parser/").1,
                 pending := [0], initiated := 1 }
    ∧ (Session.start sampleState).runGated
        [.submit "/drawing_parser/", .submit "/gantt_parser/"] = none
    ∧ (Session.Serial { state := (handleSubmit sampleState "/drawing_parser/").1,
                         pending := [0], initiated := 1 }) :=
  ⟨rfl, rfl, rfl,
    (gated_settlement_is_latest sampleState [.submit "/drawing_parser/"]
      { state := (handleSubmit sampleState "/drawing_parser/").1, pending := [0], initiated := 1 }
      rfl rfl).1⟩

/-! ## Reachable states -/

theorem consistent_initial : Consistent initialState :=
  ⟨fun _ => ⟨rfl, rfl⟩, fun _ => rfl⟩

theorem perform_parse_consistent (s : State) (endpoint : String) (o : Outcome)
    (h : Consistent s) :
    Consistent (match handleSubmit s endpoint with
      | (s', some _) => handleSubmitSettle o s'
      | (s', none) => s') := by
  cases hfile : s.file with
  | null =>
    have hsel : s.file.selected = false := by rw [hfile]; rfl
    simp only [handleSubmit, hfile]
    exact ⟨fun _ => h.1 hsel, fun hne => absurd (h.1 hsel).1 hne⟩
  | undefined =>
    have hsel : s.file.selected = false := by rw [hfile]; rfl
    simp only [handleSubmit, hfile]
    exact ⟨fun _ => h.1 hsel, fun hne => absurd (h.1 hsel).1 hne⟩
  | file f =>
    simp only [handleSubmit, hfile]
    cases o with
    | resolved r =>
      refine ⟨fun hsel => ?_, fun _ => rfl⟩
      simp [handleSubmitSettle, FileSlot.selected, hfile] at hsel
    | rejected err =>
      simp only [handleSubmitSettle]
      cases submitErrorMessage err with
      | none =>
        refine ⟨fun hsel => ?_, fun _ => rfl⟩
        simp [FileSlot.selected, hfile] at hsel
      | some m =>
        refine ⟨fun hsel => ?_, fun hne => absurd rfl hne⟩
        simp [FileSlot.selected, hfile] at hsel

theorem perform_ask_consistent (typeErrorMessage : String) (s : State) (o : Outcome)
    (h : Consistent s) :
    Consistent (match askAI s with
      | (s', some _) => askAISettle typeErrorMessage o s'
      | (s', none) => s') := by
  by_cases hg : (!truthy s.result || trim s.aiQuestion == "") = true
  · have ha : askAI s = (s, none) := by simp only [askAI, hg, if_true]
    rw [ha]
    exact h
  · have ha : askAI s = ({ s with aiLoading := true, aiAnswer := .str "" },
        some (.ask (renderHost ++ "/ask_ai/") s.aiQuestion (getProp s.result "result"))) := by
      simp only [askAI, hg]
      rfl
    rw [ha]
    simp only []
    rw [askAISettle_frame]
    have hres : s.result ≠ .null := by
      intro hnull
      apply hg
      simp [hnull, truthy]
    refine ⟨fun hsel => absurd (h.1 hsel).1 hres, h.2⟩

theorem perform_consistent (typeErrorMessage : String) (s : State) (op : Op)
    (h : Consistent s) : Consistent (perform typeErrorMessage s op) := by
  cases op with
  | selectFile files => exact ⟨fun _ => ⟨rfl, rfl⟩, fun _ => rfl⟩
  | chartFormat value => exact h
  | contentType value => exact h
  | question value => exact h
  | parse endpoint o => exact perform_parse_consistent s endpoint o h
  | ask o => exact perform_ask_consistent typeErrorMessage s o h

theorem runOps_consistent (typeErrorMessage : String) (ops : List Op) (s : State)
    (h : Consistent s) : Consistent (runOps typeErrorMessage s ops) := by
  induction ops generalizing s with
  | nil => exact h
  | cons op rest ih => exact ih _ (perform_consistent typeErrorMessage s op h)

/-- C14: in every state reached from the initial state by operations each
run to settlement before the next starts (file selections, cancelled ones
included, changes of the selects and of the question, parse submissions and
AI queries with any outcome), a result and an error are never both stored,
a stored result implies that a file is selected, and whenever `handleSubmit`
takes its no-file branch (it posts no request) no result and no AI answer
are stored. -/
theorem reachable_consistent (typeErrorMessage : String) (ops : List Op) (s : State)
    (hr : runOps typeErrorMessage initialState ops = s) :
    ¬ (s.result ≠ .null ∧ s.error ≠ none)
    ∧ (s.result ≠ .null → ∃ f, s.file = .file f)
    ∧ ∀ endpoint, (handleSubmit s endpoint).2 = none →
        s.result = .null ∧ s.aiAnswer = .str "" := by
  have h : Consistent s := hr ▸ runOps_consistent typeErrorMessage ops _ consistent_initial
  refine ⟨fun hb => hb.2 (h.2 hb.1), ?_, ?_⟩
  · intro hne
    cases hfile : s.file with
    | null => exact absurd (h.1 (by rw [hfile]; rfl)).1 hne
    | undefined => exact absurd (h.1 (by rw [hfile]; rfl)).1 hne
    | file f => exact ⟨f, rfl⟩
  · intro endpoint hnone
    apply h.1
    cases hfile : s.file with
    | null => rfl
    | undefined => rfl
    | file f => simp [handleSubmit, hfile] at hnone

/-- Witness of C14: `sampleOps` reaches `sampleReached`, which stores a result
and an AI answer, has a file selected and no error. -/
theorem reachable_consistent_witness :
    runOps "response.data is null" initialState sampleOps = sampleReached
    ∧ (¬ (sampleReached.result ≠ .null ∧ sampleReached.error ≠ none)
      ∧ (sampleReached.result ≠ .null → ∃ f, sampleReached.file = .file f)
      ∧ ∀ endpoint, (handleSubmit sampleReached endpoint).2 = none →
          sampleReached.result = .null ∧ sampleReached.aiAnswer = .str "") :=
  ⟨rfl, reachable_consistent "response.data is null" sampleOps sampleReached rfl⟩

/-! ## A successful parse and what runs before it settles -/

theorem askAI_null_result (s : State) (h : s.result = .null) : askAI s = (s, none) := by
  simp [askAI, h, truthy]

theorem interleave_cleared (typeErrorMessage : String) (s : State) (e : Interleaved)
    (hres : s.result = .null) (herr : s.error = none) :
    (interleave typeErrorMessage s e).result = .null
    ∧ (interleave typeErrorMessage s e).error = none
    ∧ (e.isAiSettle = false → s.aiAnswer = .str "" →
        (interleave typeErrorMessage s e).aiAnswer = .str "") := by
  cases e with
  | selectFile files => exact ⟨rfl, rfl, fun _ _ => rfl⟩
  | chartFormat value => exact ⟨hres, herr, fun _ h => h⟩
  | contentType value => exact ⟨hres, herr, fun _ h => h⟩
  | question value => exact ⟨hres, herr, fun _ h => h⟩
  | ask =>
    simp only [interleave, askAI_null_result s hres]
    exact ⟨hres, herr, fun _ h => h⟩
  | aiSettle o =>
    simp only [interleave]
    rw [askAISettle_frame]
    exact ⟨hres, herr, fun h _ => absurd h (by simp [Interleaved.isAiSettle])⟩

theorem runInterleaved_cleared (typeErrorMessage : String) (steps : List Interleaved)
    (s : State) (hres : s.result = .null) (herr : s.error = none) :
    (runInterleaved typeErrorMessage s steps).result = .null
    ∧ (runInterleaved typeErrorMessage s steps).error = none
    ∧ (steps.all (fun e => !e.isAiSettle) = true → s.aiAnswer = .str "" →
        (runInterleaved typeErrorMessage s steps).aiAnswer = .str "") := by
  induction steps generalizing s with
  | nil => exact ⟨hres, herr, fun _ h => h⟩
  | cons e rest ih =>
    obtain ⟨h1, h2, h3⟩ := interleave_cleared typeErrorMessage s e hres herr
    obtain ⟨k1, k2, k3⟩ := ih (interleave typeErrorMessage s e) h1 h2
    refine ⟨k1, k2, ?_⟩
    intro hall hans
    simp only [List.all_cons, Bool.and_eq_true, Bool.not_eq_true'] at hall
    exact k3 hall.2 (h3 hall.1 hans)

/-- C4, as stated, fails when an AI request is in flight: on `sampleAnswered`
a question is posted, then the Gantt button (enabled, since it looks at
`loading` and `file` only) posts a parse, then the AI request resolves with
the answer "1:100", then the parse resolves; the state after settlement
stores that answer, not the empty string. -/
theorem pending_answer_counterexample :
    (askAI sampleAnswered).2.isSome = true
    ∧ submitDisabled (askAI sampleAnswered).1 = false
    ∧ (handleSubmit (askAI sampleAnswered).1 "/gantt_parser/").2.isSome = true
    ∧ (handleSubmit (askAI sampleAnswered).1 "/gantt_parser/").1.aiAnswer = .str ""
    ∧ (handleSubmitSettle (.resolved ⟨.obj [("result", .null)]⟩)
        (runInterleaved "response.data is null"
          (handleSubmit (askAI sampleAnswered).1 "/gantt_parser/").1
          [.aiSettle (.resolved ⟨.obj [("answer", .str "1:100")]⟩)])).aiAnswer = .str "1:100"
    ∧ (handleSubmitSettle (.resolved ⟨.obj [("result", .null)]⟩)
        (runInterleaved "response.data is null"
          (handleSubmit (askAI sampleAnswered).1 "/gantt_parser/").1
          [.aiSettle (.resolved ⟨.obj [("answer", .str "1:100")]⟩)])).aiAnswer ≠ .str "" := by
  refine ⟨by decide, by decide, by decide, rfl, rfl, ?_⟩
  intro h
  have h' : "1:100" = "" := JsVal.str.inj h
  exact absurd h' (by decide)

/-- C4, amended: with a file selected, the state `handleSubmit` leaves when it
posts the request already has `result` null, `error` null and `aiAnswer`
empty. Whatever runs on the page before the request resolves with `body`
(file selections, changes of the selects and of the question, calls of
`askAI`, settlements of an AI request), the state after settlement has
`result` equal to `body` and `error` null, and it has `aiAnswer` empty
provided no AI request settled in between. On any state the success path
writes `result` and `loading` only, and `result` becomes the body itself. -/
theorem handleSubmit_success_stores_body (s : State) (f : File)
    (endpoint typeErrorMessage : String) (body : JsVal) (steps : List Interleaved)
    (hf : s.file = .file f) :
    (handleSubmit s endpoint).2.isSome = true
    ∧ ((handleSubmit s endpoint).1.result = .null
      ∧ (handleSubmit s endpoint).1.error = none
      ∧ (handleSubmit s endpoint).1.aiAnswer = .str "")
    ∧ ((handleSubmitSettle (.resolved ⟨body⟩)
          (runInterleaved typeErrorMessage (handleSubmit s endpoint).1 steps)).result = body
      ∧ (handleSubmitSettle (.resolved ⟨body⟩)
          (runInterleaved typeErrorMessage (handleSubmit s endpoint).1 steps)).error = none
      ∧ (steps.all (fun e => !e.isAiSettle) = true →
          (handleSubmitSettle (.resolved ⟨body⟩)
            (runInterleaved typeErrorMessage (handleSubmit s endpoint).1 steps)).aiAnswer
            = .str ""))
    ∧ ∀ s' : State,
        handleSubmitSettle (.resolved ⟨body⟩) s' = { s' with result := body, loading := false } := by
  have hd : (handleSubmit s endpoint).1
      = { s with loading := true, error := none, result := .null, aiAnswer := .str "" } := by
    simp [handleSubmit, hf]
  have hsome : (handleSubmit s endpoint).2.isSome = true := by
    simp [handleSubmit, hf]
  obtain ⟨_, k2, k3⟩ := runInterleaved_cleared typeErrorMessage steps
    (handleSubmit s endpoint).1 (by rw [hd]) (by rw [hd])
  refine ⟨hsome, ⟨by rw [hd], by rw [hd], by rw [hd]⟩, ⟨rfl, k2, ?_⟩, fun _ => rfl⟩
  intro hall
  exact k3 hall (by rw [hd])

/-- Witness of C4, amended: a second parse on `sampleAnswered`, which holds a
result and an AI answer; before it resolves with the body `{"result": null}`
the question is changed, the ask button is pressed and the file is picked
again. -/
theorem handleSubmit_success_stores_body_witness :
    sampleAnswered.file = .file sampleFile
    ∧ [Interleaved.question "And the date?", .ask, .selectFile [sampleFile]].all
        (fun e => !e.isAiSettle) = true
    ∧ (handleSubmitSettle (.resolved ⟨.obj [("result", .null)]⟩)
        (runInterleaved "response.data is null"
          (handleSubmit sampleAnswered "/gantt_parser/").1
          [.question "And the date?", .ask, .selectFile [sampleFile]])).result
        = .obj [("result", .null)]
    ∧ (handleSubmitSettle (.resolved ⟨.obj [("result", .null)]⟩)
        (runInterleaved "response.data is null"
          (handleSubmit sampleAnswered "/gantt_parser/").1
          [.question "And the date?", .ask, .selectFile [sampleFile]])).error = none
    ∧ (handleSubmitSettle (.resolved ⟨.obj [("result", .null)]⟩)
        (runInterleaved "response.data is null"
          (handleSubmit sampleAnswered "/gantt_parser/").1
          [.question "And the date?", .ask, .selectFile [sampleFile]])).aiAnswer = .str "" :=
  ⟨rfl, by decide,
    (handleSubmit_success_stores_body sampleAnswered sampleFile "/gantt_parser/"
      "response.data is null" (.obj [("result", .null)])
      [.question "And the date?", .ask, .selectFile [sampleFile]] rfl).2.2.1.1,
    (handleSubmit_success_stores_body sampleAnswered sampleFile "/gantt_parser/"
      "response.data is null" (.obj [("result", .null)])
      [.question "And the date?", .ask, .selectFile [sampleFile]] rfl).2.2.1.2.1,
    (handleSubmit_success_stores_body sampleAnswered sampleFile "/gantt_parser/"
      "response.data is null" (.obj [("result", .null)])
      [.question "And the date?", .ask, .selectFile [sampleFile]] rfl).2.2.1.2.2 (by decide)⟩

end App
